import Mathlib

/-!
Shallow embedding of `devito/core/cpu.py`: the optimization-pass
orchestration and operator-specialization subsystem.

The external pass libraries (`devito.passes.clusters`, `devito.passes.iet`)
are out of scope; what matters here is *which* passes each strategy invokes,
*in which order*, and how configuration is normalized and validated.  We
therefore model the two intermediate representations as traces of invoked
passes: a cluster sequence is the list of cluster-level pass events applied
to it so far, and an IET graph is the list of IET-level pass events applied
to it so far.  Each pass-library function is embedded as the function that
appends its event to the trace.  Exception propagation through the custom
engine's loop (which in Python wraps each call in `try/except KeyError`) is
modelled separately by a generic executor over fallible passes.

Python option values (which may be `None`, a bool, an int or a string, and
are tested for truthiness by `or` and `if`) are embedded as `PyVal`.
-/

/-- A Python option value, as stored in the flat `options` mapping. -/
inductive PyVal where
  | none : PyVal
  | bool (b : Bool) : PyVal
  | int (n : Int) : PyVal
  | str (s : String) : PyVal
deriving DecidableEq, Repr

/-- Python truthiness: `None`, `False`, `0` and `""` are falsy. -/
def PyVal.truthy : PyVal → Bool
  | .none => false
  | .bool b => b
  | .int n => n != 0
  | .str s => s != ""

/-- Python `a or b`: `a` when `a` is truthy, otherwise `b`. -/
def pyOr (a b : PyVal) : PyVal := if a.truthy then a else b

/-- The flat caller-supplied options mapping, before normalization; the
field names transliterate the keys `blocklevels`, `cire-repeats-inv`,
`cire-repeats-sops`, `cire-mincost-inv`, `cire-mincost-sops`,
`min-storage`, `mpi`, `openmp`. -/
structure Options where
  blocklevels : PyVal
  cireRepeatsInv : PyVal
  cireRepeatsSops : PyVal
  cireMincostInv : PyVal
  cireMincostSops : PyVal
  minStorage : PyVal
  mpi : PyVal
  openmp : PyVal
deriving DecidableEq, Repr

/-- A `{invariants, sops}` structure keyed by CIRE category, as built by
`_normalize_kwargs` for `cire-repeats` and `cire-mincost`. -/
structure CireTable where
  invariants : PyVal
  sops : PyVal
deriving DecidableEq, Repr

/-- The options mapping after `_normalize_kwargs`: the four scalar CIRE
inputs have been popped and consolidated into the two nested tables. -/
structure NormalizedOptions where
  blocklevels : PyVal
  cireRepeats : CireTable
  cireMincost : CireTable
  minStorage : PyVal
  mpi : PyVal
  openmp : PyVal
deriving DecidableEq, Repr

/-- CIRE category selector (the string argument of `cire`). -/
inductive CireKind where
  | invariants : CireKind
  | sops : CireKind
deriving DecidableEq, Repr

/-- Cluster-level pass events (invocations of `devito.passes.clusters`
functions, as performed by the specializers in `cpu.py`). -/
inductive ClusterPass where
  | fuse (toposort : Bool) : ClusterPass
  | cire (kind : CireKind) : ClusterPass
  | lift : ClusterPass
  | blocking : ClusterPass
  | extractIncrements : ClusterPass
  | factorize : ClusterPass
  | optimizePows : ClusterPass
  | cse : ClusterPass
  | eliminateArrays : ClusterPass
deriving DecidableEq, Repr

/-- IET-level pass events (invocations of `devito.passes.iet` functions).
`mpiize` records the `mode=options['mpi']` value its closure captured. -/
inductive IETPass where
  | avoidDenormals : IETPass
  | optimizeHalospots : IETPass
  | mpiize (mode : PyVal) : IETPass
  | relaxIncrDimensions : IETPass
  | makeSimd : IETPass
  | makeParallel : IETPass
  | hoistProdders : IETPass
  | placeDefinitions : IETPass
  | placeCasts : IETPass
deriving DecidableEq, Repr

/-- A cluster sequence, abstracted to the trace of passes applied to it. -/
abbrev Clusters := List ClusterPass

/-- An IET graph, abstracted to the trace of passes applied to it. -/
abbrev Graph := List IETPass

/-- The configuration error raised by `cpu.py` (`InvalidOperator`). -/
inductive InvalidOperator where
  | unknownPasses (passes : List String) : InvalidOperator
  | minStorageWithFsg : InvalidOperator
deriving DecidableEq, Repr

/-! Pass-library denotations: each external pass function appends its
event to the trace.  Grouped in namespace `P`. -/

def P.fuse (clusters : Clusters) (toposort : Bool) : Clusters :=
  clusters ++ [ClusterPass.fuse toposort]

def P.cire (clusters : Clusters) (kind : CireKind) : Clusters :=
  clusters ++ [ClusterPass.cire kind]

def P.lift (clusters : Clusters) : Clusters :=
  clusters ++ [ClusterPass.lift]

def P.blocking (clusters : Clusters) : Clusters :=
  clusters ++ [ClusterPass.blocking]

def P.extractIncrements (clusters : Clusters) : Clusters :=
  clusters ++ [ClusterPass.extractIncrements]

def P.factorize (clusters : Clusters) : Clusters :=
  clusters ++ [ClusterPass.factorize]

def P.optimizePows (clusters : Clusters) : Clusters :=
  clusters ++ [ClusterPass.optimizePows]

def P.cse (clusters : Clusters) : Clusters :=
  clusters ++ [ClusterPass.cse]

def P.eliminateArrays (clusters : Clusters) : Clusters :=
  clusters ++ [ClusterPass.eliminateArrays]

def P.avoidDenormals (graph : Graph) : Graph :=
  graph ++ [IETPass.avoidDenormals]

def P.optimizeHalospots (graph : Graph) : Graph :=
  graph ++ [IETPass.optimizeHalospots]

def P.mpiize (graph : Graph) (mode : PyVal) : Graph :=
  graph ++ [IETPass.mpiize mode]

def P.relaxIncrDimensions (graph : Graph) : Graph :=
  graph ++ [IETPass.relaxIncrDimensions]

def P.makeSimd (graph : Graph) : Graph :=
  graph ++ [IETPass.makeSimd]

def P.makeParallel (graph : Graph) : Graph :=
  graph ++ [IETPass.makeParallel]

def P.hoistProdders (graph : Graph) : Graph :=
  graph ++ [IETPass.hoistProdders]

def P.placeDefinitions (graph : Graph) : Graph :=
  graph ++ [IETPass.placeDefinitions]

def P.placeCasts (graph : Graph) : Graph :=
  graph ++ [IETPass.placeCasts]

/-! `CPU64NoopOperator`: class-level defaults and `_normalize_kwargs`. -/

def CPU64NoopOperator.BLOCK_LEVELS : PyVal := .int 1

def CPU64NoopOperator.CIRE_REPEATS_INV : PyVal := .int 1

def CPU64NoopOperator.CIRE_REPEATS_SOPS : PyVal := .int 5

def CPU64NoopOperator.CIRE_MINCOST_INV : PyVal := .int 50

def CPU64NoopOperator.CIRE_MINCOST_SOPS : PyVal := .int 10

/-- `CPU64NoopOperator._normalize_kwargs`: fill falsy tunables with the
class defaults, popping the four scalar CIRE inputs into the two nested
category-keyed tables. -/
def CPU64NoopOperator.normalizeKwargs (o : Options) : NormalizedOptions :=
  { blocklevels := pyOr o.blocklevels CPU64NoopOperator.BLOCK_LEVELS,
    cireRepeats :=
      { invariants := pyOr o.cireRepeatsInv CPU64NoopOperator.CIRE_REPEATS_INV,
        sops := pyOr o.cireRepeatsSops CPU64NoopOperator.CIRE_REPEATS_SOPS },
    cireMincost :=
      { invariants := pyOr o.cireMincostInv CPU64NoopOperator.CIRE_MINCOST_INV,
        sops := pyOr o.cireMincostSops CPU64NoopOperator.CIRE_MINCOST_SOPS },
    minStorage := o.minStorage,
    mpi := o.mpi,
    openmp := o.openmp }

/-- `CPU64NoopOperator._specialize_iet`: optional MPI, optional OpenMP,
then symbol definitions and casts. -/
def CPU64NoopOperator.specializeIET (k : NormalizedOptions) (graph : Graph) : Graph :=
  let graph := if k.mpi.truthy then P.mpiize graph k.mpi else graph
  let graph := if k.openmp.truthy then P.makeParallel graph else graph
  let graph := P.placeDefinitions graph
  P.placeCasts graph

/-! `CPU64Operator` ("Base" strategy). -/

/-- `CPU64Operator._specialize_clusters`: toposort+fusion, invariant
hoist+lift, blocking, flop reduction, CSE, fusion, dead-array
elimination. -/
def CPU64Operator.specializeClusters (_k : NormalizedOptions) (clusters : Clusters) :
    Clusters :=
  let clusters := P.fuse clusters true
  let clusters := P.cire clusters .invariants
  let clusters := P.lift clusters
  let clusters := P.blocking clusters
  let clusters := P.extractIncrements clusters
  let clusters := P.cire clusters .sops
  let clusters := P.factorize clusters
  let clusters := P.optimizePows clusters
  let clusters := P.cse clusters
  let clusters := P.fuse clusters false
  P.eliminateArrays clusters

/-- `CPU64Operator._specialize_iet`. -/
def CPU64Operator.specializeIET (k : NormalizedOptions) (graph : Graph) : Graph :=
  let graph := P.avoidDenormals graph
  let graph := P.optimizeHalospots graph
  let graph := if k.mpi.truthy then P.mpiize graph k.mpi else graph
  let graph := P.relaxIncrDimensions graph
  let graph := P.makeSimd graph
  let graph := P.hoistProdders graph
  let graph := P.placeDefinitions graph
  P.placeCasts graph

/-- `CPU64OpenMPOperator._specialize_iet`: as Base, plus shared-memory
parallel annotation after SIMD annotation, before prodder hoisting. -/
def CPU64OpenMPOperator.specializeIET (k : NormalizedOptions) (graph : Graph) : Graph :=
  let graph := P.avoidDenormals graph
  let graph := P.optimizeHalospots graph
  let graph := if k.mpi.truthy then P.mpiize graph k.mpi else graph
  let graph := P.relaxIncrDimensions graph
  let graph := P.makeSimd graph
  let graph := P.makeParallel graph
  let graph := P.hoistProdders graph
  let graph := P.placeDefinitions graph
  P.placeCasts graph

/-! `Intel64FSGOperator` ("for small grids").  It inherits
`_specialize_iet` from `Intel64Operator = CPU64Operator`. -/

/-- `Intel64FSGOperator._normalize_kwargs`: the inherited normalization,
then rejection of `min-storage`. -/
def Intel64FSGOperator.normalizeKwargs (o : Options) :
    Except InvalidOperator NormalizedOptions :=
  let k := CPU64NoopOperator.normalizeKwargs o
  if k.minStorage.truthy then
    Except.error InvalidOperator.minStorageWithFsg
  else
    Except.ok k

/-- `Intel64FSGOperator._specialize_clusters`: as Base, but with blocking
deferred to the very end, after dead-array elimination. -/
def Intel64FSGOperator.specializeClusters (_k : NormalizedOptions) (clusters : Clusters) :
    Clusters :=
  let clusters := P.fuse clusters true
  let clusters := P.cire clusters .invariants
  let clusters := P.lift clusters
  let clusters := P.extractIncrements clusters
  let clusters := P.cire clusters .sops
  let clusters := P.factorize clusters
  let clusters := P.optimizePows clusters
  let clusters := P.cse clusters
  let clusters := P.fuse clusters false
  let clusters := P.eliminateArrays clusters
  P.blocking clusters

/-- `Intel64FSGOperator` inherits `_specialize_iet` from `CPU64Operator`. -/
def Intel64FSGOperator.specializeIET : NormalizedOptions → Graph → Graph :=
  CPU64Operator.specializeIET

/-- `Intel64FSGOpenMPOperator._specialize_iet = CPU64OpenMPOperator._specialize_iet`. -/
def Intel64FSGOpenMPOperator.specializeIET : NormalizedOptions → Graph → Graph :=
  CPU64OpenMPOperator.specializeIET

/-- The whole FSG build, as the orchestrator runs it: normalization first
(which may fail), then the cluster and IET pipelines. -/
def Intel64FSGOperator.build (o : Options) :
    Except InvalidOperator (NormalizedOptions × Clusters × Graph) :=
  match Intel64FSGOperator.normalizeKwargs o with
  | Except.error e => Except.error e
  | Except.ok k =>
      Except.ok (k, Intel64FSGOperator.specializeClusters k [],
        Intel64FSGOperator.specializeIET k [])

/-! `CustomOperator`: the dynamic pipeline engine. -/

/-- `CustomOperator._known_passes`. -/
def CustomOperator.knownPasses : List String :=
  ["blocking", "denormals", "optcomms", "openmp", "mpi",
   "simd", "prodders", "topofuse", "fuse", "factorize",
   "cire-sops", "cse", "lift", "opt-pows"]

/-- `CustomOperator._make_clusters_passes_mapper`: the cluster-stage
name-to-function mapping (a Python dict, embedded as an association
list). -/
def CustomOperator.clustersPassesMapper (_k : NormalizedOptions) :
    List (String × (Clusters → Clusters)) :=
  [("blocking", P.blocking),
   ("factorize", P.factorize),
   ("fuse", fun c => P.fuse c false),
   ("lift", fun c => P.lift (P.cire c .invariants)),
   ("cire-sops", fun c => P.cire c .sops),
   ("cse", P.cse),
   ("opt-pows", P.optimizePows),
   ("topofuse", fun c => P.fuse c true)]

/-- `CustomOperator._make_iet_passes_mapper`: the IET-stage mapping; the
`mpi` entry closes over `options['mpi']`. -/
def CustomOperator.ietPassesMapper (k : NormalizedOptions) :
    List (String × (Graph → Graph)) :=
  [("denormals", P.avoidDenormals),
   ("optcomms", P.optimizeHalospots),
   ("blocking", P.relaxIncrDimensions),
   ("openmp", P.makeParallel),
   ("mpi", fun g => P.mpiize g k.mpi),
   ("simd", P.makeSimd),
   ("prodders", P.hoistProdders)]

/-- The shared loop body of `_specialize_clusters` and `_specialize_iet`:
iterate `mode` in order; a token found in the mapping has its function
applied (the result replacing the running representation), a token absent
from the mapping raises `KeyError` at the lookup, which the `except
KeyError` clause turns into a skip.  This is the projection of the loop
onto total pass functions; `callPasses` below is the same loop over
fallible passes. -/
def CustomOperator.applyPasses {α : Type} (mapper : List (String × (α → α))) :
    List String → α → α
  | [], x => x
  | i :: rest, x =>
    match mapper.lookup i with
    | some f => CustomOperator.applyPasses mapper rest (f x)
    | Option.none => CustomOperator.applyPasses mapper rest x

/-- `CustomOperator._specialize_clusters`. -/
def CustomOperator.specializeClusters (k : NormalizedOptions) (mode : List String)
    (clusters : Clusters) : Clusters :=
  CustomOperator.applyPasses (CustomOperator.clustersPassesMapper k) mode clusters

/-- `CustomOperator._specialize_iet`: the loop over `mode`, then the
force-calls of `passes_mapper['mpi']` and `passes_mapper['openmp']` when
the global option is truthy and the token was not in `mode`, then symbol
definitions and casts. -/
def CustomOperator.specializeIET (k : NormalizedOptions) (mode : List String)
    (graph : Graph) : Graph :=
  let graph := CustomOperator.applyPasses (CustomOperator.ietPassesMapper k) mode graph
  let graph := if "mpi" ∉ mode ∧ k.mpi.truthy then P.mpiize graph k.mpi else graph
  let graph := if "openmp" ∉ mode ∧ k.openmp.truthy then P.makeParallel graph else graph
  let graph := P.placeDefinitions graph
  P.placeCasts graph

/-- `CustomOperator._build`: the sanity check against `_known_passes`
runs first; only when it succeeds does the build go on to normalization
and the two specialization stages (run by the inherited machinery). -/
def CustomOperator.build (o : Options) (mode : List String) :
    Except InvalidOperator (NormalizedOptions × Clusters × Graph) :=
  if mode.any (fun i => !(CustomOperator.knownPasses.contains i)) then
    Except.error (InvalidOperator.unknownPasses mode)
  else
    let k := CPU64NoopOperator.normalizeKwargs o
    Except.ok (k, CustomOperator.specializeClusters k mode [],
      CustomOperator.specializeIET k mode [])

/-! The custom engine's loop over fallible passes.  In the source both
stage loops read

```
for i in passes:
    try:
        clusters = passes_mapper[i](clusters)
    except KeyError:
        pass
```

so the `except KeyError` clause covers the whole expression
`passes_mapper[i](clusters)`: it catches both the lookup miss for a token
absent from the mapping *and* any `KeyError` raised inside the invoked
pass function itself; in either case the assignment does not happen and
the loop continues with the representation unchanged.  Any other
exception escapes the loop. -/

/-- An exception escaping an external pass function. -/
inductive PyExc where
  | keyError : PyExc
  | other (code : Nat) : PyExc
deriving DecidableEq, Repr

/-- The custom engine's stage loop over fallible pass functions (external
passes are black boxes and may raise). -/
def callPasses {α : Type} (mapper : List (String × (α → Except PyExc α))) :
    List String → α → Except PyExc α
  | [], x => Except.ok x
  | i :: rest, x =>
    match mapper.lookup i with
    | Option.none => callPasses mapper rest x
    | some f =>
      match f x with
      | Except.ok y => callPasses mapper rest y
      | Except.error PyExc.keyError => callPasses mapper rest x
      | Except.error e => Except.error e

/-! Specification-side per-token effects, used to state that the custom
loops process `mode` strictly in caller order with stage-mismatched
tokens contributing nothing. -/

/-- The cluster-stage events a single token contributes (empty for a
token outside the cluster-stage mapping, e.g. an IET-only token). -/
def clusterEvents (t : String) : List ClusterPass :=
  if t = "blocking" then [ClusterPass.blocking]
  else if t = "factorize" then [ClusterPass.factorize]
  else if t = "fuse" then [ClusterPass.fuse false]
  else if t = "lift" then [ClusterPass.cire .invariants, ClusterPass.lift]
  else if t = "cire-sops" then [ClusterPass.cire .sops]
  else if t = "cse" then [ClusterPass.cse]
  else if t = "opt-pows" then [ClusterPass.optimizePows]
  else if t = "topofuse" then [ClusterPass.fuse true]
  else []

/-- The IET-stage events a single token contributes. -/
def ietEvents (k : NormalizedOptions) (t : String) : List IETPass :=
  if t = "denormals" then [IETPass.avoidDenormals]
  else if t = "optcomms" then [IETPass.optimizeHalospots]
  else if t = "blocking" then [IETPass.relaxIncrDimensions]
  else if t = "openmp" then [IETPass.makeParallel]
  else if t = "mpi" then [IETPass.mpiize k.mpi]
  else if t = "simd" then [IETPass.makeSimd]
  else if t = "prodders" then [IETPass.hoistProdders]
  else []

/-- Recognizer for MPI-injection events in an IET trace. -/
def IETPass.isMpiize : IETPass → Bool
  | .mpiize _ => true
  | _ => false

/-- Number of MPI-injection invocations recorded in an IET trace. -/
def countMpiize (g : Graph) : Nat := (g.filter IETPass.isMpiize).length

/-- Recognizer for shared-memory parallel-annotation events. -/
def IETPass.isMakeParallel : IETPass → Bool
  | .makeParallel => true
  | _ => false

/-- Number of shared-memory parallel-annotation invocations in a trace. -/
def countMakeParallel (g : Graph) : Nat :=
  (g.filter IETPass.isMakeParallel).length

/-- An options mapping with every key unset (`None`), as when the caller
supplies nothing. -/
def Options.allUnset : Options :=
  ⟨.none, .none, .none, .none, .none, .none, .none, .none⟩

/-- Options with `min-storage` requested. -/
def Options.withMinStorage : Options :=
  ⟨.none, .none, .none, .none, .none, .bool true, .none, .none⟩

/-- Options with the five tunables set to assorted falsy values
(`0`, `False`, `None`). -/
def Options.allFalsyTunables : Options :=
  ⟨.int 0, .bool false, .none, .int 0, .bool false, .none, .none, .none⟩

/-- The normalized options of a build that supplied no options at all
(in particular `mpi` and `openmp` are falsy). -/
def defaultNormalized : NormalizedOptions :=
  CPU64NoopOperator.normalizeKwargs Options.allUnset

/-- An IET trace ends with the symbol-placement step: definition
placement immediately followed by cast placement, and nothing after. -/
def endsWithPlacement (g : Graph) : Prop :=
  ∃ pre, g = pre ++ [IETPass.placeDefinitions, IETPass.placeCasts]

/-! Stub pass functions for exercising `callPasses` on fallible external
passes (the pass libraries are black boxes to the orchestrator, so any
exception behavior is possible on their side). -/

/-- A stub pass that raises `KeyError` from inside its own body. -/
def cseStubKeyError : Nat → Except PyExc Nat := fun _ => Except.error PyExc.keyError

/-- A stub pass that raises a non-`KeyError` exception. -/
def cseStubFatal : Nat → Except PyExc Nat := fun _ => Except.error (PyExc.other 7)

/-- A stub pass that succeeds, incrementing a counter so that its
execution is observable. -/
def fuseStubOk : Nat → Except PyExc Nat := fun n => Except.ok (n + 1)

/-- A stage mapping whose `cse` pass raises `KeyError` internally. -/
def stubMapperKeyError : List (String × (Nat → Except PyExc Nat)) :=
  [("cse", cseStubKeyError), ("fuse", fuseStubOk)]

/-- A stage mapping whose `cse` pass raises a non-`KeyError` exception. -/
def stubMapperFatal : List (String × (Nat → Except PyExc Nat)) :=
  [("cse", cseStubFatal), ("fuse", fuseStubOk)]

/-! Helper lemmas. -/

/-- `a or d` is truthy whenever the default `d` is truthy. -/
lemma pyOr_truthy (a d : PyVal) (hd : d.truthy = true) : (pyOr a d).truthy = true := by
  unfold pyOr
  split_ifs with h
  · exact h
  · exact hd

/-- A truthy value is not the integer zero. -/
lemma PyVal.truthy_ne_int_zero (v : PyVal) (h : v.truthy = true) : v ≠ PyVal.int 0 := by
  rintro rfl
  simp [PyVal.truthy] at h

/-- On a valid `mode`, the custom cluster-stage loop appends, in caller
order, exactly the per-token cluster events; stage-mismatched tokens
contribute nothing. -/
lemma applyPasses_clusters_eq (k : NormalizedOptions) :
    ∀ (mode : List String), (∀ t ∈ mode, t ∈ CustomOperator.knownPasses) →
      ∀ c, CustomOperator.applyPasses (CustomOperator.clustersPassesMapper k) mode c
        = c ++ mode.flatMap clusterEvents := by
  intro mode
  induction mode with
  | nil => intro _ c; simp [CustomOperator.applyPasses]
  | cons t rest ih =>
    intro h c
    have ht := h t (List.mem_cons_self t rest)
    have hrest : ∀ x ∈ rest, x ∈ CustomOperator.knownPasses :=
      fun x hx => h x (List.mem_cons_of_mem t hx)
    have hr := ih hrest
    simp [CustomOperator.clustersPassesMapper, P.blocking, P.factorize, P.fuse,
      P.cire, P.lift, P.cse, P.optimizePows] at hr
    simp only [CustomOperator.knownPasses, List.mem_cons, List.not_mem_nil, or_false] at ht
    rcases ht with rfl | rfl | rfl | rfl | rfl | rfl | rfl | rfl | rfl | rfl | rfl | rfl | rfl | rfl <;>
      simp [CustomOperator.applyPasses, CustomOperator.clustersPassesMapper, List.lookup,
        clusterEvents, P.blocking, P.factorize, P.fuse, P.cire, P.lift, P.cse,
        P.optimizePows, hr]

/-- On a valid `mode`, the custom IET-stage loop appends, in caller
order, exactly the per-token IET events. -/
lemma applyPasses_iet_eq (k : NormalizedOptions) :
    ∀ (mode : List String), (∀ t ∈ mode, t ∈ CustomOperator.knownPasses) →
      ∀ g, CustomOperator.applyPasses (CustomOperator.ietPassesMapper k) mode g
        = g ++ mode.flatMap (ietEvents k) := by
  intro mode
  induction mode with
  | nil => intro _ g; simp [CustomOperator.applyPasses]
  | cons t rest ih =>
    intro h g
    have ht := h t (List.mem_cons_self t rest)
    have hrest : ∀ x ∈ rest, x ∈ CustomOperator.knownPasses :=
      fun x hx => h x (List.mem_cons_of_mem t hx)
    have hr := ih hrest
    simp [CustomOperator.ietPassesMapper, P.avoidDenormals, P.optimizeHalospots,
      P.relaxIncrDimensions, P.makeParallel, P.mpiize, P.makeSimd, P.hoistProdders] at hr
    simp only [CustomOperator.knownPasses, List.mem_cons, List.not_mem_nil, or_false] at ht
    rcases ht with rfl | rfl | rfl | rfl | rfl | rfl | rfl | rfl | rfl | rfl | rfl | rfl | rfl | rfl <;>
      simp [CustomOperator.applyPasses, CustomOperator.ietPassesMapper, List.lookup,
        ietEvents, P.avoidDenormals, P.optimizeHalospots, P.relaxIncrDimensions,
        P.makeParallel, P.mpiize, P.makeSimd, P.hoistProdders, hr]

/-! Claim theorems. -/

/-- Claim C1: any custom `mode` containing a token outside
`_known_passes` makes the build fail with `InvalidOperator` before
normalization and before either specialization stage runs — the error
result carries no cluster or IET trace, so no pass executed. -/
theorem C1_vocabulary_gate (o : Options) (mode : List String)
    (h : ∃ t ∈ mode, t ∉ CustomOperator.knownPasses) :
    CustomOperator.build o mode
      = Except.error (InvalidOperator.unknownPasses mode) := by
  unfold CustomOperator.build
  rw [if_pos]
  obtain ⟨t, htm, htk⟩ := h
  refine List.any_eq_true.mpr ⟨t, htm, ?_⟩
  simp [htk]

/-- Witness for C1 at the concrete invalid mode `["bogus"]`. -/
theorem C1_vocabulary_gate_witness :
    CustomOperator.build Options.allUnset ["bogus"]
      = Except.error (InvalidOperator.unknownPasses ["bogus"]) :=
  C1_vocabulary_gate Options.allUnset ["bogus"]
    ⟨"bogus", by decide, by decide⟩

/-- Claim C2: requesting `min-storage` together with the FSG strategy
makes normalization raise `InvalidOperator`, failing the whole build
before any cluster or IET pass runs (the error result carries no
traces); with `min-storage` falsy, FSG normalization succeeds with the
inherited normalization's result. -/
theorem C2_fsg_min_storage (o : Options) :
    (o.minStorage.truthy = true →
      Intel64FSGOperator.build o
        = Except.error InvalidOperator.minStorageWithFsg)
    ∧ (o.minStorage.truthy = false →
      Intel64FSGOperator.normalizeKwargs o
        = Except.ok (CPU64NoopOperator.normalizeKwargs o)) := by
  constructor
  · intro h
    simp [Intel64FSGOperator.build, Intel64FSGOperator.normalizeKwargs,
      CPU64NoopOperator.normalizeKwargs, h]
  · intro h
    simp [Intel64FSGOperator.normalizeKwargs, CPU64NoopOperator.normalizeKwargs, h]

/-- Witness for C2: `min-storage=True` fails the build and the all-unset
options normalize successfully. -/
theorem C2_fsg_min_storage_witness :
    Intel64FSGOperator.build Options.withMinStorage
      = Except.error InvalidOperator.minStorageWithFsg
    ∧ Intel64FSGOperator.normalizeKwargs Options.allUnset
      = Except.ok (CPU64NoopOperator.normalizeKwargs Options.allUnset) :=
  ⟨(C2_fsg_min_storage Options.withMinStorage).1 rfl,
   (C2_fsg_min_storage Options.allUnset).2 rfl⟩

/-- Claim C7: normalization keeps a truthy caller value and otherwise
fills in the strategy defaults — `blocklevels` 1, `cire-repeats`
invariants 1 / sops 5, `cire-mincost` invariants 50 / sops 10 — and
consolidates the four scalar CIRE inputs into the two category-keyed
tables (`NormalizedOptions` holds only the nested tables; the flat
fields are popped). -/
theorem C7_normalization_defaults (o : Options) :
    (CPU64NoopOperator.normalizeKwargs o).blocklevels
      = (if o.blocklevels.truthy then o.blocklevels else PyVal.int 1)
    ∧ (CPU64NoopOperator.normalizeKwargs o).cireRepeats
      = ⟨if o.cireRepeatsInv.truthy then o.cireRepeatsInv else PyVal.int 1,
         if o.cireRepeatsSops.truthy then o.cireRepeatsSops else PyVal.int 5⟩
    ∧ (CPU64NoopOperator.normalizeKwargs o).cireMincost
      = ⟨if o.cireMincostInv.truthy then o.cireMincostInv else PyVal.int 50,
         if o.cireMincostSops.truthy then o.cireMincostSops else PyVal.int 10⟩ :=
  ⟨rfl, rfl, rfl⟩

/-- Claim C9: a falsy caller value (`0`, `False`, `None`) for any of the
five tunables is replaced by the class default just like an unset one,
so no normalized tunable is ever falsy — in particular none can be
zero. -/
theorem C9_falsy_tunables_replaced (o : Options) :
    (o.blocklevels.truthy = false →
      (CPU64NoopOperator.normalizeKwargs o).blocklevels = PyVal.int 1)
    ∧ (o.cireRepeatsInv.truthy = false →
      (CPU64NoopOperator.normalizeKwargs o).cireRepeats.invariants = PyVal.int 1)
    ∧ (o.cireRepeatsSops.truthy = false →
      (CPU64NoopOperator.normalizeKwargs o).cireRepeats.sops = PyVal.int 5)
    ∧ (o.cireMincostInv.truthy = false →
      (CPU64NoopOperator.normalizeKwargs o).cireMincost.invariants = PyVal.int 50)
    ∧ (o.cireMincostSops.truthy = false →
      (CPU64NoopOperator.normalizeKwargs o).cireMincost.sops = PyVal.int 10)
    ∧ (CPU64NoopOperator.normalizeKwargs o).blocklevels.truthy = true
    ∧ (CPU64NoopOperator.normalizeKwargs o).cireRepeats.invariants.truthy = true
    ∧ (CPU64NoopOperator.normalizeKwargs o).cireRepeats.sops.truthy = true
    ∧ (CPU64NoopOperator.normalizeKwargs o).cireMincost.invariants.truthy = true
    ∧ (CPU64NoopOperator.normalizeKwargs o).cireMincost.sops.truthy = true
    ∧ (CPU64NoopOperator.normalizeKwargs o).blocklevels ≠ PyVal.int 0 := by
  refine ⟨?_, ?_, ?_, ?_, ?_, ?_, ?_, ?_, ?_, ?_, ?_⟩
  · intro h; simp [CPU64NoopOperator.normalizeKwargs, pyOr, h,
      CPU64NoopOperator.BLOCK_LEVELS]
  · intro h; simp [CPU64NoopOperator.normalizeKwargs, pyOr, h,
      CPU64NoopOperator.CIRE_REPEATS_INV]
  · intro h; simp [CPU64NoopOperator.normalizeKwargs, pyOr, h,
      CPU64NoopOperator.CIRE_REPEATS_SOPS]
  · intro h; simp [CPU64NoopOperator.normalizeKwargs, pyOr, h,
      CPU64NoopOperator.CIRE_MINCOST_INV]
  · intro h; simp [CPU64NoopOperator.normalizeKwargs, pyOr, h,
      CPU64NoopOperator.CIRE_MINCOST_SOPS]
  · exact pyOr_truthy _ _ (by decide)
  · exact pyOr_truthy _ _ (by decide)
  · exact pyOr_truthy _ _ (by decide)
  · exact pyOr_truthy _ _ (by decide)
  · exact pyOr_truthy _ _ (by decide)
  · exact PyVal.truthy_ne_int_zero _ (pyOr_truthy _ _ (by decide))

/-- Witness for C9: `blocklevels=0`, `cire-repeats-inv=False` and
`cire-repeats-sops=None` (among others) all take their defaults. -/
theorem C9_falsy_tunables_replaced_witness :
    (CPU64NoopOperator.normalizeKwargs Options.allFalsyTunables).blocklevels = PyVal.int 1
    ∧ (CPU64NoopOperator.normalizeKwargs Options.allFalsyTunables).cireRepeats.invariants
      = PyVal.int 1
    ∧ (CPU64NoopOperator.normalizeKwargs Options.allFalsyTunables).cireRepeats.sops
      = PyVal.int 5
    ∧ (CPU64NoopOperator.normalizeKwargs Options.allFalsyTunables).cireMincost.invariants
      = PyVal.int 50
    ∧ (CPU64NoopOperator.normalizeKwargs Options.allFalsyTunables).cireMincost.sops
      = PyVal.int 10 :=
  ⟨(C9_falsy_tunables_replaced Options.allFalsyTunables).1 (by decide),
   (C9_falsy_tunables_replaced Options.allFalsyTunables).2.1 (by decide),
   (C9_falsy_tunables_replaced Options.allFalsyTunables).2.2.1 (by decide),
   (C9_falsy_tunables_replaced Options.allFalsyTunables).2.2.2.1 (by decide),
   (C9_falsy_tunables_replaced Options.allFalsyTunables).2.2.2.2.1 (by decide)⟩

/-- Claim C3: after the tokens of `mode` are processed, the IET stage
additionally invokes MPI injection exactly when the global `mpi` option
is truthy and `'mpi'` is not in `mode`, and likewise shared-memory
parallel annotation exactly when `openmp` is truthy and `'openmp'` is
not in `mode`; in particular with `mode=()` one MPI injection happens
precisely when `mpi` is truthy. -/
theorem C3_forced_parallelism (k : NormalizedOptions) (mode : List String) (g : Graph) :
    countMpiize (CustomOperator.specializeIET k mode g)
      = countMpiize (CustomOperator.applyPasses (CustomOperator.ietPassesMapper k) mode g)
        + (if "mpi" ∉ mode ∧ k.mpi.truthy = true then 1 else 0)
    ∧ countMakeParallel (CustomOperator.specializeIET k mode g)
      = countMakeParallel (CustomOperator.applyPasses (CustomOperator.ietPassesMapper k) mode g)
        + (if "openmp" ∉ mode ∧ k.openmp.truthy = true then 1 else 0)
    ∧ countMpiize (CustomOperator.specializeIET k [] g)
      = countMpiize g + (if k.mpi.truthy = true then 1 else 0) := by
  refine ⟨?_, ?_, ?_⟩ <;>
    simp only [CustomOperator.specializeIET, CustomOperator.applyPasses] <;>
    split_ifs <;>
    simp_all [countMpiize, countMakeParallel, List.filter_append, P.mpiize,
      P.makeParallel, P.placeDefinitions, P.placeCasts, IETPass.isMpiize,
      IETPass.isMakeParallel]

/-- Claim C4: on a valid `mode`, each custom stage iterates the tokens
in exactly the caller-supplied order, invoking the function of every
token present in the current stage's mapping (its output replacing the
running representation) and silently skipping tokens absent from it, so
the result is the initial representation followed by the per-token
events concatenated in `mode`'s order; an IET-only token such as
`"openmp"` contributes nothing at the cluster stage, and a cluster-only
token such as `"cse"` contributes nothing at the IET stage. -/
theorem C4_order_fidelity_and_stage_skip (k : NormalizedOptions) (mode : List String)
    (h : ∀ t ∈ mode, t ∈ CustomOperator.knownPasses) (c : Clusters) (g : Graph) :
    CustomOperator.specializeClusters k mode c = c ++ mode.flatMap clusterEvents
    ∧ CustomOperator.applyPasses (CustomOperator.ietPassesMapper k) mode g
      = g ++ mode.flatMap (ietEvents k)
    ∧ clusterEvents "openmp" = []
    ∧ ietEvents k "cse" = [] := by
  refine ⟨?_, applyPasses_iet_eq k mode h g, by simp [clusterEvents], by simp [ietEvents]⟩
  unfold CustomOperator.specializeClusters
  exact applyPasses_clusters_eq k mode h c

/-- Witness for C4 at the valid mode `["openmp", "cse", "fuse"]`: the
cluster stage skips `openmp` and applies `cse` then `fuse` in order. -/
theorem C4_order_fidelity_and_stage_skip_witness :
    CustomOperator.specializeClusters defaultNormalized ["openmp", "cse", "fuse"] []
      = [] ++ (["openmp", "cse", "fuse"] : List String).flatMap clusterEvents :=
  (C4_order_fidelity_and_stage_skip defaultNormalized ["openmp", "cse", "fuse"]
    (by decide) [] []).1

/-- Claim C5 counterexample: the custom stage loop wraps the whole call
`passes_mapper[i](clusters)` in `try/except KeyError`, so a `KeyError`
raised *inside* an invoked pass is caught rather than propagated: with a
`cse` pass that raises `KeyError` and an observable `fuse` pass, the
loop returns success `ok 1` — the error did not propagate and the
remaining pass did execute. -/
theorem C5_error_propagation_counterexample :
    stubMapperKeyError.lookup "cse" = some cseStubKeyError
    ∧ cseStubKeyError 0 = Except.error PyExc.keyError
    ∧ callPasses stubMapperKeyError ["cse", "fuse"] 0 = Except.ok 1 :=
  ⟨rfl, rfl, rfl⟩

/-- Claim C5 as amended: an exception raised by an invoked pass
propagates unchanged out of the custom stage loop and aborts the
remaining passes, *unless* it is a `KeyError`, which the loop's
`except KeyError` clause silently catches, leaving the representation
unchanged for that token and continuing with the remaining passes. -/
theorem C5_error_propagation_amended {α : Type}
    (mapper : List (String × (α → Except PyExc α)))
    (t : String) (rest : List String) (f : α → Except PyExc α) (x : α)
    (hf : mapper.lookup t = some f) :
    (∀ e, e ≠ PyExc.keyError → f x = Except.error e →
      callPasses mapper (t :: rest) x = Except.error e)
    ∧ (f x = Except.error PyExc.keyError →
      callPasses mapper (t :: rest) x = callPasses mapper rest x) := by
  constructor
  · intro e he hfx
    cases e with
    | keyError => exact absurd rfl he
    | other n => simp [callPasses, hf, hfx]
  · intro hfx
    simp [callPasses, hf, hfx]

/-- Witness for the amended C5: a non-`KeyError` exception from `cse`
aborts the loop and surfaces unchanged, while a `KeyError` from `cse`
is swallowed and the loop continues as if the token were skipped. -/
theorem C5_error_propagation_amended_witness :
    callPasses stubMapperFatal ["cse", "fuse"] 0 = Except.error (PyExc.other 7)
    ∧ callPasses stubMapperKeyError ["cse", "fuse"] 0
      = callPasses stubMapperKeyError ["fuse"] 0 :=
  ⟨(C5_error_propagation_amended stubMapperFatal "cse" ["fuse"] cseStubFatal 0 rfl).1
      (PyExc.other 7) (by decide) rfl,
   (C5_error_propagation_amended stubMapperKeyError "cse" ["fuse"] cseStubKeyError 0
      rfl).2 rfl⟩

/-- A graph obtained by definition placement followed by cast placement
ends with the symbol-placement step. -/
lemma endsWithPlacement_of_placement (x : Graph) :
    endsWithPlacement (P.placeCasts (P.placeDefinitions x)) :=
  ⟨x, by simp [P.placeCasts, P.placeDefinitions]⟩

/-- Claim C6: in every strategy's IET specialization — Noop, Base,
OpenMP, FSG+OpenMP and Custom — the trace ends with definition placement
immediately followed by cast placement, with no pass after them,
unconditionally. -/
theorem C6_symbol_placement_last (k : NormalizedOptions) (mode : List String) (g : Graph) :
    endsWithPlacement (CPU64NoopOperator.specializeIET k g)
    ∧ endsWithPlacement (CPU64Operator.specializeIET k g)
    ∧ endsWithPlacement (CPU64OpenMPOperator.specializeIET k g)
    ∧ endsWithPlacement (Intel64FSGOpenMPOperator.specializeIET k g)
    ∧ endsWithPlacement (CustomOperator.specializeIET k mode g) :=
  ⟨endsWithPlacement_of_placement _, endsWithPlacement_of_placement _,
   endsWithPlacement_of_placement _, endsWithPlacement_of_placement _,
   endsWithPlacement_of_placement _⟩

/-- Claim C8: the Base cluster pipeline runs blocking before the
flop-reduction passes (increment extraction, sum-of-products CIRE,
factorization, power optimization); the FSG cluster pipeline applies
exactly the same passes in the same relative order except that blocking
is removed from that position and deferred to run last, after dead-array
elimination. -/
theorem C8_fsg_defers_blocking (k : NormalizedOptions) (c : Clusters) :
    CPU64Operator.specializeClusters k c
      = c ++ [ClusterPass.fuse true, ClusterPass.cire .invariants, ClusterPass.lift,
              ClusterPass.blocking, ClusterPass.extractIncrements, ClusterPass.cire .sops,
              ClusterPass.factorize, ClusterPass.optimizePows, ClusterPass.cse,
              ClusterPass.fuse false, ClusterPass.eliminateArrays]
    ∧ Intel64FSGOperator.specializeClusters k c
      = c ++ ((CPU64Operator.specializeClusters k []).filter
              (fun p => p != ClusterPass.blocking)) ++ [ClusterPass.blocking] := by
  have hfil : (CPU64Operator.specializeClusters k []).filter
      (fun p => p != ClusterPass.blocking)
      = [ClusterPass.fuse true, ClusterPass.cire .invariants, ClusterPass.lift,
         ClusterPass.extractIncrements, ClusterPass.cire .sops, ClusterPass.factorize,
         ClusterPass.optimizePows, ClusterPass.cse, ClusterPass.fuse false,
         ClusterPass.eliminateArrays] := rfl
  constructor <;>
    simp [CPU64Operator.specializeClusters, Intel64FSGOperator.specializeClusters,
      P.fuse, P.cire, P.lift, P.blocking, P.extractIncrements, P.factorize,
      P.optimizePows, P.cse, P.eliminateArrays, hfil]

/-- Claim C10: `blocking` is the only vocabulary token carried by both
the cluster-stage and the IET-stage mappings (every other token is
mapped in at most one stage), and a single `"blocking"` token in `mode`
therefore triggers two distinct passes in one build: loop blocking
during cluster specialization and incremental-dimension relaxation
during IET specialization. -/
theorem C10_blocking_maps_to_both_stages :
    (∀ k : NormalizedOptions,
      CustomOperator.knownPasses.filter (fun t =>
        ((CustomOperator.clustersPassesMapper k).lookup t).isSome
        && ((CustomOperator.ietPassesMapper k).lookup t).isSome) = ["blocking"])
    ∧ CustomOperator.specializeClusters defaultNormalized ["blocking"] []
      = [ClusterPass.blocking]
    ∧ CustomOperator.specializeIET defaultNormalized ["blocking"] []
      = [IETPass.relaxIncrDimensions, IETPass.placeDefinitions, IETPass.placeCasts] := by
  refine ⟨fun k => ?_, ?_, ?_⟩
  · rfl
  · rfl
  · simp [CustomOperator.specializeIET, CustomOperator.applyPasses,
      CustomOperator.ietPassesMapper, defaultNormalized, Options.allUnset,
      CPU64NoopOperator.normalizeKwargs, PyVal.truthy, List.lookup,
      P.relaxIncrDimensions, P.placeDefinitions, P.placeCasts]
